import Mathlib

/-!
# Verification of the Lightbox media viewer (src/assets/js/gallery.js)

This file gives a shallow embedding of the `Lightbox` class of
`src/assets/js/gallery.js` and proves properties of its state machine:
the open/close lifecycle, wraparound navigation (`prev`/`next`),
the focus trap (`trapFocus`), keyboard dispatch (`handleKeydown`),
rendering (`updateImage`, `updateNavVisibility`) and the live-region
announcement channel (`announce`).

The JavaScript object's mutable fields, together with the DOM cells it
writes (the lightbox image, caption, nav-button visibility, the body
scroll lock, `document.activeElement` and the lazily created
`#lightbox-live-region` element), are modelled as one record
`LightboxState`; each method becomes a function `LightboxState → LightboxState`.
JavaScript numbers used as indices are modelled as `Int` (the code never
clamps them), array indexing `this.images[i]` as an `Option`-valued
lookup that yields `none` exactly when JavaScript would yield
`undefined`, and the JavaScript remainder operator `%` (sign of the
dividend) as `Int.tmod`.
-/

namespace Gallery

/-- An entry of the `images` array built by `initGallery`:
`{ src: ..., alt: img.alt }` (the `alt` string may be empty). -/
structure Item where
  src : String
  alt : String
deriving DecidableEq, Repr

/-- DOM elements that can hold input focus in this model: the three
lightbox buttons, the document body, and host-page elements such as
gallery items (identified by a number). -/
inductive Element where
  | body
  | closeBtn
  | prevBtn
  | nextBtn
  | hostElem (n : Nat)
deriving DecidableEq, Repr

/-- A keyboard event as seen by `handleKeydown` / `trapFocus`:
only `e.key` and `e.shiftKey` are consulted by the code. -/
structure KeyEvent where
  key : String
  shiftKey : Bool
deriving DecidableEq, Repr

/-- The mutable state of the single `Lightbox` instance together with
the DOM cells its methods write.  Fields mirror the constructor
(`images`, `currentIndex`, `isOpen`, `focusedElementBeforeOpen`) and the
DOM: `lightboxActive` is the `active` class on the overlay,
`lightboxImageSrc`/`lightboxImageAlt`/`lightboxCaption` the rendered
image and caption, `prevBtnHidden`/`nextBtnHidden` the
`style.display = 'none'` written by `updateNavVisibility`,
`bodyOverflowHidden` the scroll lock, `activeElement` is
`document.activeElement`, and `liveRegion` is the content of the
`#lightbox-live-region` element (`none` while it does not exist yet). -/
structure LightboxState where
  images : List Item
  currentIndex : Int
  isOpen : Bool
  focusedElementBeforeOpen : Option Element
  lightboxActive : Bool
  lightboxImageSrc : String
  lightboxImageAlt : String
  lightboxCaption : String
  prevBtnHidden : Bool
  nextBtnHidden : Bool
  bodyOverflowHidden : Bool
  activeElement : Element
  liveRegion : Option String
deriving DecidableEq, Repr

/-- The state right after `new Lightbox()`: empty image list, index 0,
closed, no captured focus; the overlay DOM exists but is inactive, the
live region does not exist yet, and focus rests on the host document. -/
def initialState : LightboxState :=
  { images := []
    currentIndex := 0
    isOpen := false
    focusedElementBeforeOpen := none
    lightboxActive := false
    lightboxImageSrc := ""
    lightboxImageAlt := ""
    lightboxCaption := ""
    prevBtnHidden := false
    nextBtnHidden := false
    bodyOverflowHidden := false
    activeElement := Element.body
    liveRegion := none }

/-- JavaScript array indexing `xs[i]`: `undefined` (here `none`) when
`i` is negative or at least the length, the element otherwise. -/
def jsIndex (xs : List Item) (i : Int) : Option Item :=
  if 0 ≤ i then xs[i.toNat]? else none

/-- `Lightbox.announce(message)`: get the live region, creating it
lazily if it does not exist, then overwrite its `textContent` with the
message (replacement, not appending). -/
def announce (s : LightboxState) (message : String) : LightboxState :=
  match s.liveRegion with
  | none => { s with liveRegion := some message }
  | some _ => { s with liveRegion := some message }

/-- `Lightbox.updateImage()`: look up `images[currentIndex]`; if it is
`undefined`, return without doing anything; otherwise set the image
`src`, the image `alt` (falling back to a synthesized
"Image i of n" when the item's alt is empty), the caption, and announce
"Image i of n: alt-or-'No description'" to the live region. -/
def updateImage (s : LightboxState) : LightboxState :=
  match jsIndex s.images s.currentIndex with
  | none => s
  | some image =>
    let s1 := { s with
      lightboxImageSrc := image.src
      lightboxImageAlt :=
        if image.alt = "" then
          "Image " ++ toString (s.currentIndex + 1) ++ " of " ++ toString s.images.length
        else image.alt
      lightboxCaption := image.alt }
    announce s1
      ("Image " ++ toString (s.currentIndex + 1) ++ " of " ++ toString s.images.length
        ++ ": " ++ (if image.alt = "" then "No description" else image.alt))

/-- `Lightbox.updateNavVisibility()`: hide both nav buttons exactly
when there is at most one image. -/
def updateNavVisibility (s : LightboxState) : LightboxState :=
  let hidden := decide (s.images.length ≤ 1)
  { s with prevBtnHidden := hidden, nextBtnHidden := hidden }

/-- `Lightbox.open(images, startIndex)` (named `openLightbox` because
`open` is a Lean keyword): store the images and the start index as
given, capture `document.activeElement`, render via `updateImage`, mark
the overlay active and the state open, lock body scroll, focus the
close button, and update nav-button visibility. -/
def openLightbox (s : LightboxState) (images : List Item) (startIndex : Int) : LightboxState :=
  let s1 := { s with images := images, currentIndex := startIndex }
  let s2 := { s1 with focusedElementBeforeOpen := some s1.activeElement }
  let s3 := updateImage s2
  let s4 := { s3 with lightboxActive := true, isOpen := true }
  let s5 := { s4 with bodyOverflowHidden := true }
  let s6 := { s5 with activeElement := Element.closeBtn }
  updateNavVisibility s6

/-- `Lightbox.close()`: deactivate the overlay, mark closed, restore
body scroll, and, if a prior focus target was captured, focus it.  The
captured reference itself is left untouched by the code. -/
def close (s : LightboxState) : LightboxState :=
  let s1 := { s with lightboxActive := false, isOpen := false, bodyOverflowHidden := false }
  match s1.focusedElementBeforeOpen with
  | some e => { s1 with activeElement := e }
  | none => s1

/-- `Lightbox.prev()`: no-op when at most one image, otherwise step the
index back with wraparound (JavaScript `%` is `Int.tmod`) and re-render. -/
def prev (s : LightboxState) : LightboxState :=
  if s.images.length ≤ 1 then s
  else
    let s1 := { s with
      currentIndex := Int.tmod (s.currentIndex - 1 + s.images.length) s.images.length }
    updateImage s1

/-- `Lightbox.next()`: no-op when at most one image, otherwise step the
index forward with wraparound and re-render. -/
def next (s : LightboxState) : LightboxState :=
  if s.images.length ≤ 1 then s
  else
    let s1 := { s with
      currentIndex := Int.tmod (s.currentIndex + 1) s.images.length }
    updateImage s1

/-- `this.focusableElements = lightbox.querySelectorAll('button')`,
captured once at construction: the close, previous and next buttons in
document order, independent of their later visibility. -/
def focusableElements : List Element :=
  [Element.closeBtn, Element.prevBtn, Element.nextBtn]

/-- `Lightbox.trapFocus(e)`: on Shift+Tab from the first focusable
element redirect focus to the last; on Tab from the last redirect to
the first; otherwise let the browser move focus (state unchanged in
this model, which tracks only the redirections the code performs). -/
def trapFocus (s : LightboxState) (e : KeyEvent) : LightboxState :=
  let firstFocusable := focusableElements.getD 0 Element.body
  let lastFocusable := focusableElements.getD (focusableElements.length - 1) Element.body
  if e.shiftKey then
    if s.activeElement = firstFocusable then { s with activeElement := lastFocusable } else s
  else
    if s.activeElement = lastFocusable then { s with activeElement := firstFocusable } else s

/-- `Lightbox.handleKeydown(e)`: ignore everything while closed;
otherwise Escape closes, ArrowLeft/ArrowRight navigate, Tab runs the
focus trap, and any other key does nothing. -/
def handleKeydown (s : LightboxState) (e : KeyEvent) : LightboxState :=
  if s.isOpen then
    match e.key with
    | "Escape" => close s
    | "ArrowLeft" => prev s
    | "ArrowRight" => next s
    | "Tab" => trapFocus s e
    | _ => s
  else s

/-- The index invariant claimed by the spec: whenever the viewer is
open and the item list non-empty, `currentIndex` is a valid index. -/
def IndexInvariant (s : LightboxState) : Prop :=
  s.isOpen = true → s.images ≠ [] →
    0 ≤ s.currentIndex ∧ s.currentIndex < s.images.length

instance (s : LightboxState) : Decidable (IndexInvariant s) := by
  unfold IndexInvariant
  infer_instance

/-- A sample gallery item with a non-empty description. -/
def itemA : Item := { src := "a.jpg", alt := "A" }

/-- A second sample gallery item. -/
def itemB : Item := { src := "b.jpg", alt := "B" }

/-- The state after opening a two-item gallery at index 0. -/
def sampleOpen2 : LightboxState := openLightbox initialState [itemA, itemB] 0

/-- The state after opening a single-item gallery at index 0. -/
def sampleOpen1 : LightboxState := openLightbox initialState [itemA] 0

/-!
## Helper lemmas

Equational characterizations of the operations, shared by the claim
theorems below.
-/

/-- `announce` always ends with the live region holding exactly the new
message, whether or not the region existed before. -/
theorem announce_eq (s : LightboxState) (m : String) :
    announce s m = { s with liveRegion := some m } := by
  unfold announce
  cases s.liveRegion <;> rfl

/-- `updateImage` is the identity when the lookup yields `undefined`. -/
theorem updateImage_eq_none (s : LightboxState)
    (h : jsIndex s.images s.currentIndex = none) : updateImage s = s := by
  unfold updateImage
  rw [h]

/-- `updateImage` on a successful lookup: sets the image fields and
replaces the live region with the announcement. -/
theorem updateImage_eq_some (s : LightboxState) (item : Item)
    (h : jsIndex s.images s.currentIndex = some item) :
    updateImage s = { s with
      lightboxImageSrc := item.src
      lightboxImageAlt :=
        if item.alt = "" then
          "Image " ++ toString (s.currentIndex + 1) ++ " of " ++ toString s.images.length
        else item.alt
      lightboxCaption := item.alt
      liveRegion := some
        ("Image " ++ toString (s.currentIndex + 1) ++ " of " ++ toString s.images.length
          ++ ": " ++ (if item.alt = "" then "No description" else item.alt)) } := by
  unfold updateImage
  rw [h]
  exact announce_eq _ _

/-- `updateImage` never changes the current index. -/
theorem updateImage_currentIndex (s : LightboxState) :
    (updateImage s).currentIndex = s.currentIndex := by
  cases h : jsIndex s.images s.currentIndex with
  | none => rw [updateImage_eq_none s h]
  | some item => rw [updateImage_eq_some s item h]

/-- `updateImage` never changes the image list. -/
theorem updateImage_images (s : LightboxState) :
    (updateImage s).images = s.images := by
  cases h : jsIndex s.images s.currentIndex with
  | none => rw [updateImage_eq_none s h]
  | some item => rw [updateImage_eq_some s item h]

/-- `updateImage` never changes the open flag. -/
theorem updateImage_isOpen (s : LightboxState) :
    (updateImage s).isOpen = s.isOpen := by
  cases h : jsIndex s.images s.currentIndex with
  | none => rw [updateImage_eq_none s h]
  | some item => rw [updateImage_eq_some s item h]

/-- `updateImage` never moves focus. -/
theorem updateImage_activeElement (s : LightboxState) :
    (updateImage s).activeElement = s.activeElement := by
  cases h : jsIndex s.images s.currentIndex with
  | none => rw [updateImage_eq_none s h]
  | some item => rw [updateImage_eq_some s item h]

/-- `updateImage` never changes the captured prior-focus reference. -/
theorem updateImage_focusedElementBeforeOpen (s : LightboxState) :
    (updateImage s).focusedElementBeforeOpen = s.focusedElementBeforeOpen := by
  cases h : jsIndex s.images s.currentIndex with
  | none => rw [updateImage_eq_none s h]
  | some item => rw [updateImage_eq_some s item h]

/-- `openLightbox` stores the supplied start index without modification. -/
theorem openLightbox_currentIndex (s : LightboxState) (images : List Item) (k : Int) :
    (openLightbox s images k).currentIndex = k := by
  unfold openLightbox updateNavVisibility
  exact updateImage_currentIndex _

/-- `openLightbox` stores the supplied image list without modification. -/
theorem openLightbox_images (s : LightboxState) (images : List Item) (k : Int) :
    (openLightbox s images k).images = images := by
  unfold openLightbox updateNavVisibility
  exact updateImage_images _

/-- `openLightbox` always ends in the open state. -/
theorem openLightbox_isOpen (s : LightboxState) (images : List Item) (k : Int) :
    (openLightbox s images k).isOpen = true := by
  unfold openLightbox updateNavVisibility
  rfl

/-- `openLightbox` always leaves focus on the close button. -/
theorem openLightbox_activeElement (s : LightboxState) (images : List Item) (k : Int) :
    (openLightbox s images k).activeElement = Element.closeBtn := by
  unfold openLightbox updateNavVisibility
  rfl

/-- `openLightbox` captures whatever element held focus at call time. -/
theorem openLightbox_focusedElementBeforeOpen
    (s : LightboxState) (images : List Item) (k : Int) :
    (openLightbox s images k).focusedElementBeforeOpen = some s.activeElement := by
  unfold openLightbox updateNavVisibility
  exact updateImage_focusedElementBeforeOpen _

/-- Full characterization of `openLightbox` when the start index does
not denote an item (empty list or out-of-range index): the render and
announcement are skipped, everything else happens as usual. -/
theorem openLightbox_eq_of_invalid (s : LightboxState) (images : List Item) (k : Int)
    (h : jsIndex images k = none) :
    openLightbox s images k = { s with
      images := images
      currentIndex := k
      focusedElementBeforeOpen := some s.activeElement
      lightboxActive := true
      isOpen := true
      bodyOverflowHidden := true
      activeElement := Element.closeBtn
      prevBtnHidden := decide (images.length ≤ 1)
      nextBtnHidden := decide (images.length ≤ 1) } := by
  have h2 := updateImage_eq_none
    { s with
      images := images
      currentIndex := k
      focusedElementBeforeOpen := some s.activeElement } h
  simp only [openLightbox, updateNavVisibility]
  rw [h2]

/-- Full characterization of `close`: deactivate and unlock, and move
focus to the captured element when one is present; the captured
reference itself survives. -/
theorem close_eq (s : LightboxState) :
    close s = { s with
      lightboxActive := false
      isOpen := false
      bodyOverflowHidden := false
      activeElement :=
        match s.focusedElementBeforeOpen with
        | some e => e
        | none => s.activeElement } := by
  unfold close
  cases s.focusedElementBeforeOpen <;> rfl

/-- Full characterization of `trapFocus`: a pure focus redirection over
the fixed focusable-element list, wrapping backward from the close
button to the next button and forward from the next button to the close
button. -/
theorem trapFocus_eq (s : LightboxState) (e : KeyEvent) :
    trapFocus s e = { s with activeElement :=
      if e.shiftKey then
        if s.activeElement = Element.closeBtn then Element.nextBtn else s.activeElement
      else
        if s.activeElement = Element.nextBtn then Element.closeBtn else s.activeElement } := by
  unfold trapFocus focusableElements
  cases he : e.shiftKey
  · by_cases h : s.activeElement = Element.nextBtn <;> simp [h]
  · by_cases h : s.activeElement = Element.closeBtn <;> simp [h]

/-- `next` on a multi-image gallery: step the index with the JavaScript
remainder and re-render. -/
theorem next_eq (s : LightboxState) (h : ¬ s.images.length ≤ 1) :
    next s = updateImage
      { s with currentIndex := Int.tmod (s.currentIndex + 1) s.images.length } := by
  unfold next
  rw [if_neg h]

/-- `prev` on a multi-image gallery: step the index back with the
JavaScript remainder and re-render. -/
theorem prev_eq (s : LightboxState) (h : ¬ s.images.length ≤ 1) :
    prev s = updateImage
      { s with
        currentIndex := Int.tmod (s.currentIndex - 1 + s.images.length) s.images.length } := by
  unfold prev
  rw [if_neg h]

/-- `openLightbox` with an in-range start index establishes the index
invariant. -/
theorem inv_openLightbox (s : LightboxState) (images : List Item) (k : Int)
    (h0 : 0 ≤ k) (h1 : k < (images.length : Int)) :
    IndexInvariant (openLightbox s images k) := by
  intro _ _
  rw [openLightbox_currentIndex, openLightbox_images]
  exact ⟨h0, h1⟩

/-- `next` preserves the index invariant. -/
theorem inv_next (s : LightboxState) (h : IndexInvariant s) :
    IndexInvariant (next s) := by
  by_cases hle : s.images.length ≤ 1
  · unfold next
    rw [if_pos hle]
    exact h
  · have himg : (next s).images = s.images := by
      rw [next_eq s hle, updateImage_images]
    have hidx : (next s).currentIndex
        = Int.tmod (s.currentIndex + 1) s.images.length := by
      rw [next_eq s hle, updateImage_currentIndex]
    have hio : (next s).isOpen = s.isOpen := by
      rw [next_eq s hle, updateImage_isOpen]
    intro hopen hne
    rw [hio] at hopen
    rw [himg] at hne
    obtain ⟨hb1, hb2⟩ := h hopen hne
    rw [hidx, himg]
    refine ⟨Int.tmod_nonneg _ (by omega), Int.tmod_lt_of_pos _ (by omega)⟩

/-- `prev` preserves the index invariant. -/
theorem inv_prev (s : LightboxState) (h : IndexInvariant s) :
    IndexInvariant (prev s) := by
  by_cases hle : s.images.length ≤ 1
  · unfold prev
    rw [if_pos hle]
    exact h
  · have himg : (prev s).images = s.images := by
      rw [prev_eq s hle, updateImage_images]
    have hidx : (prev s).currentIndex
        = Int.tmod (s.currentIndex - 1 + s.images.length) s.images.length := by
      rw [prev_eq s hle, updateImage_currentIndex]
    have hio : (prev s).isOpen = s.isOpen := by
      rw [prev_eq s hle, updateImage_isOpen]
    intro hopen hne
    rw [hio] at hopen
    rw [himg] at hne
    obtain ⟨hb1, hb2⟩ := h hopen hne
    rw [hidx, himg]
    refine ⟨Int.tmod_nonneg _ (by omega), Int.tmod_lt_of_pos _ (by omega)⟩

/-- `close` always leaves the invariant holding (vacuously: it closes). -/
theorem inv_close (s : LightboxState) : IndexInvariant (close s) := by
  intro hopen _
  rw [close_eq] at hopen
  simp at hopen

/-- `trapFocus` only moves focus, so it preserves the invariant. -/
theorem inv_trapFocus (s : LightboxState) (e : KeyEvent) (h : IndexInvariant s) :
    IndexInvariant (trapFocus s e) := by
  rw [trapFocus_eq]
  exact h

/-- `handleKeydown` preserves the index invariant for every key event. -/
theorem inv_handleKeydown (s : LightboxState) (e : KeyEvent) (h : IndexInvariant s) :
    IndexInvariant (handleKeydown s e) := by
  unfold handleKeydown
  cases ho : s.isOpen
  · simp only [Bool.false_eq_true, if_false]
    exact h
  · simp only [if_true]
    split
    · exact inv_close s
    · exact inv_prev s h
    · exact inv_next s h
    · exact inv_trapFocus s e h
    · exact h

/-!
## Claims
-/

/-- C1 counterexample: from the initial state, a single `open` call
with the caller-supplied arguments `([itemA], 5)` reaches a state that
is open with a non-empty item list but `currentIndex = 5`, which is not
a valid index — so the claimed invariant does not hold for arbitrary
caller-supplied arguments. -/
theorem C1_counterexample :
    ¬ IndexInvariant (openLightbox initialState [itemA] 5) := by decide

/-- C1 (amended): whenever `isOpen` is true and `items` is non-empty,
`currentIndex` is a valid index into `items`, provided `open` is only
invoked with an in-range start index: such an `open` establishes the
invariant, and `close`, `next`, `prev` and every keyboard event
preserve it.  `open` with an out-of-range start index does not
(the code stores the index unclamped). -/
theorem C1_invariant :
    (∀ s images k, 0 ≤ k → k < (images.length : Int) →
      IndexInvariant (openLightbox s images k)) ∧
    (∀ s, IndexInvariant s → IndexInvariant (next s)) ∧
    (∀ s, IndexInvariant s → IndexInvariant (prev s)) ∧
    (∀ s, IndexInvariant (close s)) ∧
    (∀ s e, IndexInvariant s → IndexInvariant (handleKeydown s e)) :=
  ⟨fun s images k h0 h1 => inv_openLightbox s images k h0 h1,
   inv_next, inv_prev, inv_close, inv_handleKeydown⟩

/-- C1 witness: the amended invariant theorem applied to a concrete
open-navigate sequence on a two-item gallery. -/
theorem C1_invariant_witness :
    (0 : Int) ≤ 0 ∧ (0 : Int) < (([itemA, itemB].length : Nat) : Int) ∧
    IndexInvariant (next (openLightbox initialState [itemA, itemB] 0)) :=
  ⟨by decide, by decide,
    C1_invariant.2.1 _ (C1_invariant.1 initialState [itemA, itemB] 0 (by decide) (by decide))⟩

/-- C2 counterexample: calling `open` with the empty item list from the
initial (closed) state does open the viewer — `isOpen` becomes `true`,
contradicting the claim that the viewer remains `CLOSED`. -/
theorem C2_counterexample :
    initialState.isOpen = false ∧ (openLightbox initialState [] 0).isOpen = true := by
  decide

/-- C2 (amended): if `open` is called with an empty item sequence the
viewer does open (`isOpen` becomes `true` and the overlay is activated);
what the early return in `updateImage` prevents is only the rendering
and the announcement: the displayed image, its alt text, the caption and
the live region are left exactly as they were. -/
theorem C2_open_empty (s : LightboxState) (k : Int) :
    (openLightbox s [] k).isOpen = true ∧
    (openLightbox s [] k).lightboxActive = true ∧
    (openLightbox s [] k).lightboxImageSrc = s.lightboxImageSrc ∧
    (openLightbox s [] k).lightboxImageAlt = s.lightboxImageAlt ∧
    (openLightbox s [] k).lightboxCaption = s.lightboxCaption ∧
    (openLightbox s [] k).liveRegion = s.liveRegion := by
  have h : jsIndex ([] : List Item) k = none := by
    unfold jsIndex
    split <;> simp
  rw [openLightbox_eq_of_invalid s [] k h]
  exact ⟨rfl, rfl, rfl, rfl, rfl, rfl⟩

/-- C3 counterexample: `open([itemA, itemB], 5)` stores `currentIndex = 5`,
which is neither `0` nor a valid index into the two items — out-of-range
input is not treated as `0` and not clamped. -/
theorem C3_counterexample :
    (openLightbox initialState [itemA, itemB] 5).currentIndex = 5 ∧
    ¬ ((openLightbox initialState [itemA, itemB] 5).currentIndex
        < ((openLightbox initialState [itemA, itemB] 5).images.length : Int)) := by
  decide

/-- C3 (amended): for every out-of-range start index (negative or at
least `items.length`), `open` stores the index unchanged — no clamping
to `0` or to any valid index occurs — but the call still completes
without failure: the viewer opens and merely skips the render and
announcement (the live region is untouched). -/
theorem C3_open_out_of_range (s : LightboxState) (images : List Item) (k : Int)
    (h : k < 0 ∨ (images.length : Int) ≤ k) :
    (openLightbox s images k).currentIndex = k ∧
    (openLightbox s images k).isOpen = true ∧
    (openLightbox s images k).liveRegion = s.liveRegion := by
  have hj : jsIndex images k = none := by
    unfold jsIndex
    rcases h with h | h
    · rw [if_neg (by omega)]
    · rw [if_pos (by omega)]
      exact List.getElem?_eq_none (by omega)
  rw [openLightbox_eq_of_invalid s images k hj]
  exact ⟨rfl, rfl, rfl⟩

/-- C3 witness: the amended theorem applied at `open([itemA], 5)`. -/
theorem C3_open_out_of_range_witness :
    ((5 : Int) < 0 ∨ (([itemA].length : Nat) : Int) ≤ 5) ∧
    ((openLightbox initialState [itemA] 5).currentIndex = 5 ∧
      (openLightbox initialState [itemA] 5).isOpen = true ∧
      (openLightbox initialState [itemA] 5).liveRegion = initialState.liveRegion) :=
  ⟨by decide, C3_open_out_of_range initialState [itemA] 5 (by decide)⟩

/-- C6 counterexample: after `open` then `close` from the initial state
(focus initially on the document body), the captured prior-focus
reference is still `some Element.body` — `close` does not clear it. -/
theorem C6_counterexample :
    (close (openLightbox initialState [itemA] 0)).focusedElementBeforeOpen
      = some Element.body ∧
    (close (openLightbox initialState [itemA] 0)).focusedElementBeforeOpen ≠ none := by
  decide

/-- C6 (amended): `close` restores focus to the captured prior-focus
element when one is present, but it never resets the stored reference:
`focusedElementBeforeOpen` survives `close` unchanged and is only
overwritten by the next `open`. -/
theorem C6_close_keeps_reference (s : LightboxState) :
    (close s).focusedElementBeforeOpen = s.focusedElementBeforeOpen ∧
    (close s).activeElement =
      (match s.focusedElementBeforeOpen with
        | some e => e
        | none => s.activeElement) ∧
    (close s).isOpen = false := by
  rw [close_eq]
  exact ⟨rfl, rfl, rfl⟩

/-- C4 counterexample: with a single-item gallery open (`isOpen` true,
both nav buttons hidden, focus on the close button), a Shift+Tab event
redirects focus to the hidden next button — the trap ring is the fixed
three-button list, not just the close control, and focus leaves the set
of visible overlay controls. -/
theorem C4_counterexample :
    sampleOpen1.isOpen = true ∧
    sampleOpen1.images.length ≤ 1 ∧
    sampleOpen1.prevBtnHidden = true ∧
    sampleOpen1.nextBtnHidden = true ∧
    sampleOpen1.activeElement = Element.closeBtn ∧
    (handleKeydown sampleOpen1 { key := "Tab", shiftKey := true }).activeElement
      = Element.nextBtn := by
  decide

/-- C4 (amended): the focus-trap ring is the fixed list of all three
controls captured at construction (close, previous, next), regardless
of their visibility: Shift+Tab from the first control (close) redirects
to the last control (next) and Tab from the last redirects to the
first, even when `items.length ≤ 1` hides the previous/next buttons;
the redirection is completely independent of the visibility flags. -/
theorem C4_trap_ring_fixed (s : LightboxState) (e : KeyEvent) :
    (trapFocus s e).activeElement =
      (if e.shiftKey then
        if s.activeElement = Element.closeBtn then Element.nextBtn else s.activeElement
      else
        if s.activeElement = Element.nextBtn then Element.closeBtn else s.activeElement) ∧
    ∀ b1 b2, trapFocus { s with prevBtnHidden := b1, nextBtnHidden := b2 } e
      = { trapFocus s e with prevBtnHidden := b1, nextBtnHidden := b2 } := by
  constructor
  · rw [trapFocus_eq]
  · intro b1 b2
    rw [trapFocus_eq, trapFocus_eq]

/-- C7: with at most one item, `next` and `prev` return the state
entirely unchanged — same index, no re-render of any display field, and
no new announcement in the live region. -/
theorem C7_nav_noop (s : LightboxState) (h : s.images.length ≤ 1) :
    next s = s ∧ prev s = s := by
  constructor
  · unfold next
    rw [if_pos h]
  · unfold prev
    rw [if_pos h]

/-- C7 witness: the no-op theorem applied to the open single-item
sample state. -/
theorem C7_nav_noop_witness :
    sampleOpen1.images.length ≤ 1 ∧
    (next sampleOpen1 = sampleOpen1 ∧ prev sampleOpen1 = sampleOpen1) :=
  ⟨by decide, C7_nav_noop sampleOpen1 (by decide)⟩

/-- C8: whenever `updateImage` (the render step of `open`, `next` and
`prev`) finds an item at `currentIndex`, the live region ends holding
exactly "Image {currentIndex+1} of {items.length}: {alt or
'No description'}", and the result is the same whatever the region held
before (not yet created, or any previous message): only the latest
announcement is ever observable. -/
theorem C8_announcement (s : LightboxState) (item : Item)
    (h : jsIndex s.images s.currentIndex = some item) :
    (updateImage s).liveRegion = some
      ("Image " ++ toString (s.currentIndex + 1) ++ " of " ++ toString s.images.length
        ++ ": " ++ (if item.alt = "" then "No description" else item.alt)) ∧
    ∀ prior : Option String,
      (updateImage { s with liveRegion := prior }).liveRegion
        = (updateImage s).liveRegion := by
  constructor
  · rw [updateImage_eq_some s item h]
  · intro prior
    rw [updateImage_eq_some { s with liveRegion := prior } item h,
      updateImage_eq_some s item h]

/-- C8 witness: the announcement theorem applied to the open
single-item sample state, replacing a previous message. -/
theorem C8_announcement_witness :
    jsIndex sampleOpen1.images sampleOpen1.currentIndex = some itemA ∧
    (updateImage { sampleOpen1 with liveRegion := some "old" }).liveRegion
      = (updateImage sampleOpen1).liveRegion :=
  ⟨by decide, (C8_announcement sampleOpen1 itemA (by decide)).2 (some "old")⟩

/-- C9: `open` always captures the element holding focus at call time;
calling `open` while already open therefore captures the close button
(which the first `open` focused), so the following `close` restores
focus to the close button rather than to the element focused before the
first `open`. -/
theorem C9_reopen_focus (s : LightboxState) (images1 images2 : List Item) (k1 k2 : Int) :
    (openLightbox s images1 k1).focusedElementBeforeOpen = some s.activeElement ∧
    (openLightbox (openLightbox s images1 k1) images2 k2).focusedElementBeforeOpen
      = some Element.closeBtn ∧
    (close (openLightbox (openLightbox s images1 k1) images2 k2)).activeElement
      = Element.closeBtn := by
  refine ⟨openLightbox_focusedElementBeforeOpen s images1 k1, ?_, ?_⟩
  · rw [openLightbox_focusedElementBeforeOpen, openLightbox_activeElement]
  · rw [close_eq]
    rw [openLightbox_focusedElementBeforeOpen, openLightbox_activeElement]

/-- C10: while the viewer is closed, the keydown handler returns the
state completely unchanged for every key event — no field changes, no
announcement, no focus redirection. -/
theorem C10_closed_keydown (s : LightboxState) (e : KeyEvent) (h : s.isOpen = false) :
    handleKeydown s e = s := by
  unfold handleKeydown
  rw [h]
  rfl

/-- C10 witness: the closed-state theorem applied to the initial state
and an Escape key event. -/
theorem C10_closed_keydown_witness :
    initialState.isOpen = false ∧
    handleKeydown initialState { key := "Escape", shiftKey := false } = initialState :=
  ⟨by decide,
    C10_closed_keydown initialState { key := "Escape", shiftKey := false } (by decide)⟩

/-- After `k` applications of `next` from a state with `n ≥ 2` images
and a valid index, the image list is unchanged and the index is
`(start + k) mod n`. -/
theorem next_iterate (s : LightboxState) (n : Nat) (hn : 2 ≤ n)
    (hlen : s.images.length = n)
    (h0 : 0 ≤ s.currentIndex) (h1 : s.currentIndex < (n : Int)) :
    ∀ k : Nat, (next^[k] s).images = s.images ∧
      (next^[k] s).currentIndex = (s.currentIndex + k) % (n : Int) := by
  intro k
  induction k with
  | zero =>
    refine ⟨rfl, ?_⟩
    simp
    exact (Int.emod_eq_of_lt h0 h1).symm
  | succ k ih =>
    obtain ⟨him, hidx⟩ := ih
    have hle : ¬ (next^[k] s).images.length ≤ 1 := by
      rw [him, hlen]
      omega
    have him2 : (next^[k + 1] s).images = s.images := by
      rw [Function.iterate_succ_apply', next_eq _ hle, updateImage_images]
      exact him
    have hidx2 : (next^[k + 1] s).currentIndex
        = Int.tmod ((next^[k] s).currentIndex + 1) ((next^[k] s).images.length) := by
      rw [Function.iterate_succ_apply', next_eq _ hle, updateImage_currentIndex]
    refine ⟨him2, ?_⟩
    rw [hidx2, him, hlen, hidx]
    have hnn : 0 ≤ (s.currentIndex + (k : Int)) % (n : Int) :=
      Int.emod_nonneg _ (by omega)
    rw [@Int.tmod_eq_emod ((s.currentIndex + (k : Int)) % (n : Int) + 1) ((n : Nat) : Int)
      (by omega) (by omega)]
    rw [Int.emod_add_emod]
    have e : s.currentIndex + (k : Int) + 1 = s.currentIndex + ((k + 1 : Nat) : Int) := by
      push_cast
      ring
    rw [e]

/-- After `k` applications of `prev` from a state with `n ≥ 2` images
and a valid index, the image list is unchanged and the index is
`(start - k) mod n`. -/
theorem prev_iterate (s : LightboxState) (n : Nat) (hn : 2 ≤ n)
    (hlen : s.images.length = n)
    (h0 : 0 ≤ s.currentIndex) (h1 : s.currentIndex < (n : Int)) :
    ∀ k : Nat, (prev^[k] s).images = s.images ∧
      (prev^[k] s).currentIndex = (s.currentIndex - k) % (n : Int) := by
  intro k
  induction k with
  | zero =>
    refine ⟨rfl, ?_⟩
    simp
    exact (Int.emod_eq_of_lt h0 h1).symm
  | succ k ih =>
    obtain ⟨him, hidx⟩ := ih
    have hle : ¬ (prev^[k] s).images.length ≤ 1 := by
      rw [him, hlen]
      omega
    have him2 : (prev^[k + 1] s).images = s.images := by
      rw [Function.iterate_succ_apply', prev_eq _ hle, updateImage_images]
      exact him
    have hidx2 : (prev^[k + 1] s).currentIndex
        = Int.tmod ((prev^[k] s).currentIndex - 1 + ((prev^[k] s).images.length))
            ((prev^[k] s).images.length) := by
      rw [Function.iterate_succ_apply', prev_eq _ hle, updateImage_currentIndex]
    refine ⟨him2, ?_⟩
    rw [hidx2, him, hlen, hidx]
    have hnn : 0 ≤ (s.currentIndex - (k : Int)) % (n : Int) :=
      Int.emod_nonneg _ (by omega)
    rw [@Int.tmod_eq_emod ((s.currentIndex - (k : Int)) % (n : Int) - 1 + ((n : Nat) : Int))
      ((n : Nat) : Int) (by omega) (by omega)]
    have e1 : (s.currentIndex - (k : Int)) % (n : Int) - 1 + ((n : Nat) : Int)
        = (s.currentIndex - (k : Int)) % (n : Int) + ((n : Int) - 1) := by
      ring
    rw [e1, Int.emod_add_emod]
    have e2 : s.currentIndex - (k : Int) + ((n : Int) - 1)
        = (s.currentIndex - ((k + 1 : Nat) : Int)) + (n : Int) * 1 := by
      push_cast
      ring
    rw [e2, Int.add_mul_emod_self_left]

/-- C5: on a gallery of `n ≥ 2` items with any valid `currentIndex`,
`n` applications of `next` return `currentIndex` to its original value,
and so do `n` applications of `prev` (cyclic closure of wraparound
navigation). -/
theorem C5_cyclic (s : LightboxState) (n : Nat) (hn : 2 ≤ n)
    (hlen : s.images.length = n)
    (h0 : 0 ≤ s.currentIndex) (h1 : s.currentIndex < (n : Int)) :
    (next^[n] s).currentIndex = s.currentIndex ∧
    (prev^[n] s).currentIndex = s.currentIndex := by
  constructor
  · rw [(next_iterate s n hn hlen h0 h1 n).2]
    have e : s.currentIndex + (n : Int) = s.currentIndex + (n : Int) * 1 := by ring
    rw [e, Int.add_mul_emod_self_left, Int.emod_eq_of_lt h0 h1]
  · rw [(prev_iterate s n hn hlen h0 h1 n).2]
    have e : s.currentIndex - (n : Int) = s.currentIndex + (n : Int) * (-1) := by ring
    rw [e, Int.add_mul_emod_self_left, Int.emod_eq_of_lt h0 h1]

/-- C5 witness: the cyclic-closure theorem applied to the open two-item
sample state. -/
theorem C5_cyclic_witness :
    2 ≤ 2 ∧ sampleOpen2.images.length = 2 ∧
    (0 : Int) ≤ sampleOpen2.currentIndex ∧
    sampleOpen2.currentIndex < ((2 : Nat) : Int) ∧
    ((next^[2] sampleOpen2).currentIndex = sampleOpen2.currentIndex ∧
      (prev^[2] sampleOpen2).currentIndex = sampleOpen2.currentIndex) :=
  ⟨by decide, by decide, by decide, by decide,
    C5_cyclic sampleOpen2 2 (by decide) (by decide) (by decide) (by decide)⟩

end Gallery
